import Mathlib

/-!
A verification development for the deferred indexing, masked-assignment and
expression-composition layer of the grblas library (`grblas/expr.py`).

The Python classes are shallowly embedded as Lean structures and executable
functions.  Python exceptions are represented by an explicit error value
carrying the semantic error kind of the design's taxonomy:
`TypeError` at shape/tuple-nesting/variant sites is `typeKind`;
`TypeError` at "unsupported operation for the object kind" sites (indexing a
scalar, multi-element delete, assigning into a transposed view) is
`operationKind`; `TypeError` at the mutually-exclusive-parameter site in
`Assigner.__init__` is `parameterKind`; `IndexError` is `indexKind`;
`ValueError` is `valueKind`.  The numbers an error message names are kept in
the error value (`named1`, `named2`), as is the `argname` of an
`_expect_type` failure.

State-changing container primitives (`_assign_element`, `_delete_element`,
`_prep_for_assign`, `_update`) are not interpreted: each call is recorded in
an ordered trace, so that theorems can speak about which primitives a
commit routine invokes and in which order.
-/

set_option autoImplicit false

namespace Grblas

/-- The semantic error taxonomy.  `dimensionKind` stands for the engine-side
dimension-mismatch failure of a probe expression, which is external to this
layer's own taxonomy. -/
inductive ErrKind
  | typeKind
  | indexKind
  | valueKind
  | attributeKind
  | parameterKind
  | operationKind
  | dimensionKind
deriving DecidableEq, Repr

/-- Which argument an `_expect_type` failure names. -/
inductive Side
  | left
  | right
deriving DecidableEq, Repr

/-- An error: its kind, the numbers its message names (two groups, e.g. the
two sizes of a mismatch message), and the argument name it reports, if any. -/
structure Err where
  kind : ErrKind
  named1 : List Int
  named2 : List Int
  argname : Option Side
deriving DecidableEq, Repr

/-- Shorthand for an error that names no sizes and no argument. -/
def Err.plain (k : ErrKind) : Err := ⟨k, [], [], none⟩

/-- A Python `slice` object: `start`, `stop`, `step`, each possibly `None`. -/
structure PySlice where
  start : Option Int
  stop : Option Int
  step : Option Int
deriving DecidableEq, Repr

/-- CPython's index adjustment for one slice bound (`PySlice_AdjustIndices`):
`none` becomes the default, a negative value is shifted by the length and
clamped below at `lower`, a nonnegative value is clamped above at `upper`. -/
def adjustBound (b : Option Int) (dflt : Int) (n : Int) (lower upper : Int) : Int :=
  match b with
  | none => dflt
  | some v => if v < 0 then max (v + n) lower else min v upper

/-- `slice.indices(n)`: the normalized `(start, stop, step)` of a slice over a
sequence of length `n`; `none` when the step is zero (Python raises
`ValueError` there). -/
def sliceBounds (s : PySlice) (n : Nat) : Option (Int × Int × Int) :=
  match s.step with
  | some 0 => none
  | st =>
    let step : Int := st.getD 1
    if 0 < step then
      some (adjustBound s.start 0 n 0 n, adjustBound s.stop n n 0 n, step)
    else
      some (adjustBound s.start ((n : Int) - 1) n (-1) ((n : Int) - 1),
            adjustBound s.stop (-1) n (-1) ((n : Int) - 1), step)

/-- Number of elements of the normalized slice `(start, stop, step)`. -/
def sliceCount (start stop step : Int) : Nat :=
  if 0 < step then
    if start < stop then ((stop - start - 1) / step + 1).toNat else 0
  else
    if stop < start then ((start - stop - 1) / (-step) + 1).toNat else 0

/-- The arithmetic progression `start, start+step, ...` of length `k`. -/
def arithList (start step : Int) : Nat → List Int
  | 0 => []
  | k + 1 => start :: arithList (start + step) step k

/-- `tuple(range(n)[s])`: the explicit integer sequence a slice denotes over
a dimension of size `n`; `none` when the step is zero. -/
def sliceList (s : PySlice) (n : Nat) : Option (List Int) :=
  (sliceBounds s n).map fun b => arithList b.1 b.2.2 (sliceCount b.1 b.2.1 b.2.2)

/-- A per-dimension index value, as `parse_index` distinguishes them:
an integer, a slice, a rank-`ndim` numpy array (with an integer-dtype flag
and, for rank 1, its data), a list, a tuple of integers, some other
sequence-like object coercible to a tuple of integers, or an object that
`tuple(...)` cannot convert. -/
inductive Idx
  | int (i : Int)
  | slc (s : PySlice)
  | arr (ndim : Nat) (intdtype : Bool) (xs : List Int)
  | lst (xs : List Int)
  | intTup (xs : List Int)
  | seqOk (xs : List Int)
  | seqBad
deriving DecidableEq, Repr

/-- The raw argument of an indexing expression: either a single non-tuple
index or a tuple of per-dimension indexes. -/
inductive Raw
  | base (i : Idx)
  | tup (xs : List Idx)
deriving DecidableEq, Repr

/-- The normalized per-dimension index representation:
`_CScalar(int(index))`, the `_ALL_INDICES` sentinel, or `_CArray(index)`. -/
inductive IdxRep
  | cscalar (i : Int)
  | allIndices
  | carray (xs : List Int)
deriving DecidableEq, Repr

/-- One entry of `IndexerResolver.indices`: the index representation and the
size field (`None` exactly for a plain integer index). -/
abbrev IndexSpec := IdxRep × Option Nat

/-- `IndexerResolver.parse_index`: normalize one per-dimension index against
the dimension's size.  A tuple reaching this function falls into the generic
`tuple(index)` coercion branch (the per-position tuple rejection happens in
`parse_indices`). -/
def parse_index (index : Idx) (size : Nat) : Except Err IndexSpec :=
  match index with
  | .int i =>
    if (size : Int) ≤ i then .error ⟨.indexKind, [i], [(size : Int)], none⟩
    else .ok (.cscalar i, none)
  | .slc s =>
    if s = ⟨none, none, none⟩ ∨ s = ⟨some 0, none, none⟩ then
      .ok (.allIndices, some size)
    else
      match sliceList s size with
      | none => .error (Err.plain .valueKind)
      | some xs => .ok (.carray xs, some xs.length)
  | .arr ndim intdtype xs =>
    if ndim ≠ 1 then .error (Err.plain .typeKind)
    else if ¬ intdtype then .error (Err.plain .typeKind)
    else .ok (.carray xs, some xs.length)
  | .lst xs => .ok (.carray xs, some xs.length)
  | .intTup xs => .ok (.carray xs, some xs.length)
  | .seqOk xs => .ok (.carray xs, some xs.length)
  | .seqBad => .error (Err.plain .typeKind)

/-- One iteration of the `parse_indices` loop: a tuple in a per-dimension
slot is rejected, anything else goes to `parse_index`. -/
def parse_position (idx : Idx) (size : Nat) : Except Err IndexSpec :=
  match idx with
  | .intTup _ => .error (Err.plain .typeKind)
  | _ => parse_index idx size

/-- `IndexerResolver.parse_indices`: normalize the raw index argument against
the container's shape.  A 1-D container rejects a tuple argument; a 2-D
container requires exactly a 2-tuple.  A 0-D shape never reaches this
function through the `Updater` paths (they reject scalars first); the model
returns the error Python's iteration over the argument would produce. -/
def parse_indices (indices : Raw) (shape : List Nat) : Except Err (List IndexSpec) :=
  match shape, indices with
  | [_], .tup _ => .error (Err.plain .typeKind)
  | [n], .base i => do
    let s ← parse_position i n
    pure [s]
  | [r, c], .tup [a, b] => do
    let s1 ← parse_position a r
    let s2 ← parse_position b c
    pure [s1, s2]
  | [_, _], _ => .error (Err.plain .typeKind)
  | _, _ => .error (Err.plain .typeKind)

/-- `IndexerResolver`: the ordered per-dimension index specs. -/
structure IndexerResolver where
  indices : List IndexSpec
deriving DecidableEq, Repr

/-- `IndexerResolver.is_single_element`: true iff every size field is `None`. -/
def IndexerResolver.is_single_element (r : IndexerResolver) : Bool :=
  r.indices.all fun p => p.2.isNone

/-- `IndexerResolver.get_index(dim)`: a resolver restricted to one
dimension's spec.  Only called with a dimension index inside the list; the
default is irrelevant on those calls. -/
def IndexerResolver.get_index (r : IndexerResolver) (dim : Nat) : IndexerResolver :=
  ⟨[r.indices.getD dim (.cscalar 0, none)]⟩

/-- A value an operand reference can denote: one of the container variants
(Scalar is 0-D; a TransposedMatrix view carries the shape it exposes), or a
`foreign` object that is none of them (as infix dispatch may receive through
a reflected operator). -/
inductive Obj
  | scalar
  | vector (size : Nat)
  | matrix (nrows ncols : Nat)
  | transposedMatrix (nrows ncols : Nat)
  | foreign
deriving DecidableEq, Repr

/-- `obj.shape`. -/
def Obj.shape : Obj → List Nat
  | .scalar => []
  | .vector n => [n]
  | .matrix r c => [r, c]
  | .transposedMatrix r c => [r, c]
  | .foreign => []

/-- `obj._is_scalar`. -/
def Obj.is_scalar : Obj → Bool
  | .scalar => true
  | _ => false

/-- `getattr(obj, "_is_transposed", False)`. -/
def Obj.is_transposed : Obj → Bool
  | .transposedMatrix _ _ => true
  | _ => false

/-- `type(obj) is Vector`. -/
def Obj.isVector : Obj → Bool
  | .vector _ => true
  | _ => false

/-- `type(obj) is Matrix or type(obj) is TransposedMatrix`. -/
def Obj.isMatrixLike : Obj → Bool
  | .matrix _ _ => true
  | .transposedMatrix _ _ => true
  | _ => false

/-- `obj._nrows` of a matrix-like object (never read on other variants). -/
def Obj.nrowsOf : Obj → Nat
  | .matrix r _ => r
  | .transposedMatrix r _ => r
  | _ => 0

/-- `obj._ncols` of a matrix-like object (never read on other variants). -/
def Obj.ncolsOf : Obj → Nat
  | .matrix _ c => c
  | .transposedMatrix _ c => c
  | _ => 0

/-- `obj._size` of a vector (never read on other variants). -/
def Obj.sizeOf : Obj → Nat
  | .vector n => n
  | _ => 0

/-- `IndexerResolver(obj, indices)`: resolve a raw index argument against a
container. -/
def resolveIndex (obj : Obj) (keys : Raw) : Except Err IndexerResolver :=
  match parse_indices keys obj.shape with
  | .error e => .error e
  | .ok specs => .ok ⟨specs⟩

/-- The call-time parameters an `Updater` captures (its `kwargs` dict); a
`none` field is a parameter that was not captured. -/
structure Kwargs where
  mask : Option Obj
  accum : Option Nat
  replace : Option Bool
  input_mask : Option Obj
deriving DecidableEq, Repr

/-- `not self.kwargs`: no parameter captured. -/
def Kwargs.isEmpty (k : Kwargs) : Bool :=
  k.mask.isNone && k.accum.isNone && k.replace.isNone && k.input_mask.isNone

/-- The empty parameter set. -/
def Kwargs.noParams : Kwargs := ⟨none, none, none, none⟩

/-- An opaque right-hand value. -/
abbrev Val := Nat

/-- The deferred-assignment expression `_prep_for_assign` returns. -/
inductive Delayed
  | assignExpr (indices : List IndexSpec) (v : Val) (mask : Option Obj) (is_submask : Bool)
deriving DecidableEq, Repr

/-- A container primitive call, recorded rather than interpreted. -/
inductive Prim
  | assign_element (indices : List IndexSpec) (v : Val)
  | delete_element (indices : List IndexSpec)
  | prep_for_assign (indices : List IndexSpec) (v : Val) (mask : Option Obj) (is_submask : Bool)
  | update (d : Delayed) (k : Kwargs)
deriving DecidableEq, Repr

/-- `Updater`: a container bound to captured call parameters. -/
structure Updater where
  parent : Obj
  kwargs : Kwargs
deriving DecidableEq, Repr

/-- `Updater._setitem`: the commit routine.  Single-element index with no
captured parameters takes the fast `_assign_element` path; every other case
builds the deferred assignment with `_prep_for_assign(mask, is_submask)` and
applies it through `self.update`, i.e. `parent._update(delayed, **kwargs)`. -/
def Updater.setitem (u : Updater) (ri : IndexerResolver) (obj : Val) (is_submask : Bool) :
    List Prim :=
  if ri.is_single_element && u.kwargs.isEmpty then
    [Prim.assign_element ri.indices obj]
  else
    [Prim.prep_for_assign ri.indices obj u.kwargs.mask is_submask,
     Prim.update (Delayed.assignExpr ri.indices obj u.kwargs.mask is_submask) u.kwargs]

/-- `Updater.__setitem__`: reject a scalar parent, resolve the index, then
run the commit routine with `is_submask=False`.  The result pairs the trace
of primitive calls with the error, if one was raised. -/
def Updater.setitemKeys (u : Updater) (keys : Raw) (obj : Val) : List Prim × Option Err :=
  if u.parent.is_scalar then ([], some (Err.plain .operationKind))
  else
    match resolveIndex u.parent keys with
    | .error e => ([], some e)
    | .ok ri => (u.setitem ri obj false, none)

/-- `Updater.__delitem__`: reject a scalar parent, resolve the index, then
delete a single element, or fail on a multi-element index. -/
def Updater.delitem (u : Updater) (keys : Raw) : List Prim × Option Err :=
  if u.parent.is_scalar then ([], some (Err.plain .operationKind))
  else
    match resolveIndex u.parent keys with
    | .error e => ([], some e)
    | .ok ri =>
      if ri.is_single_element then ([Prim.delete_element ri.indices], none)
      else ([], some (Err.plain .operationKind))

/-- `Assigner`: a resolved index bound to an `Updater`, awaiting a value. -/
structure Assigner where
  updater : Updater
  resolved_indexes : IndexerResolver
  is_submask : Bool
deriving DecidableEq, Repr

/-- `Assigner.__init__`: construction fails when the bound `Updater`
captured `input_mask`, which is valid only for extraction. -/
def Assigner.make (u : Updater) (ri : IndexerResolver) (is_submask : Bool) :
    Except Err Assigner :=
  if u.kwargs.input_mask.isSome then .error (Err.plain .parameterKind)
  else .ok ⟨u, ri, is_submask⟩

/-- `Assigner.update` and `Assigner.__lshift__` (both forward to the bound
`Updater`'s commit routine, carrying `is_submask`). -/
def Assigner.update (a : Assigner) (obj : Val) : List Prim :=
  a.updater.setitem a.resolved_indexes obj a.is_submask

/-- `Updater.__getitem__`: reject a scalar parent, resolve the index, and
return an `Assigner` with `is_submask=False`. -/
def Updater.getitem (u : Updater) (keys : Raw) : Except Err Assigner :=
  if u.parent.is_scalar then .error (Err.plain .operationKind)
  else do
    let ri ← resolveIndex u.parent keys
    Assigner.make u ri false

/-- The composite commit path `C(params)[index] << v` / `.update(v)`:
`Updater.__getitem__` followed by `Assigner.update`. -/
def Updater.bracketAssign (u : Updater) (keys : Raw) (obj : Val) : List Prim × Option Err :=
  match u.getitem keys with
  | .error e => ([], some e)
  | .ok a => (a.update obj, none)

/-- The declared role of a mask wrapper object. -/
inductive MaskType
  | structural
  | structuralComplement
  | value
  | valueComplement
deriving DecidableEq, Repr

/-- A mask wrapper: its declared type and the container it wraps. -/
structure InputMask where
  mtype : MaskType
  mask : Obj
deriving DecidableEq, Repr

/-- Modelled from the spec: `_check_mask` (in `base.py`, not under `src/`)
validates the mask object's role/type against the target and passes for
every well-formed mask object, which the `InputMask` type already
guarantees here. -/
def check_mask (_im : InputMask) (_output : Obj) : Except Err Unit := .ok ()

/-- The mask `_input_mask_to_mask` derives: the original wrapper's declared
type, the wrapped container, and the resolver it was projected through
(`mask._prep_for_extract(resolver)` materialized and rewrapped). -/
structure DerivedMask where
  mtype : MaskType
  source : Obj
  through : IndexerResolver
deriving DecidableEq, Repr

/-- `AmbiguousAssignOrExtract`: the staging object `container[index]`
returns. -/
structure AmbiguousAssignOrExtract where
  parent : Obj
  resolved_indexes : IndexerResolver
deriving DecidableEq, Repr

/-- `AmbiguousAssignOrExtract._input_mask_to_mask`: translate a mask given
as `input_mask` against the extraction target.  A Vector mask on a
matrix-like parent requires exactly one integer-resolved dimension and a
mask length equal to the parent's extent along the other dimension (the
mismatch error names both sizes); otherwise the mask's shape must equal the
parent's shape (the mismatch error names both shapes).  The wildcard row of
the two-spec destructuring is unreachable: a matrix-like parent's resolver
always holds two specs. -/
def AmbiguousAssignOrExtract.input_mask_to_mask
    (a : AmbiguousAssignOrExtract) (im : InputMask) : Except Err DerivedMask :=
  if im.mask.isVector && !a.parent.isVector then
    match a.resolved_indexes.indices with
    | [(_, rowsize), (_, colsize)] =>
      match rowsize with
      | none =>
        if a.parent.ncolsOf ≠ im.mask.sizeOf then
          .error ⟨.valueKind, [(a.parent.ncolsOf : Int)], [(im.mask.sizeOf : Int)], none⟩
        else .ok ⟨im.mtype, im.mask, a.resolved_indexes.get_index 1⟩
      | some _ =>
        match colsize with
        | none =>
          if a.parent.nrowsOf ≠ im.mask.sizeOf then
            .error ⟨.valueKind, [(a.parent.nrowsOf : Int)], [(im.mask.sizeOf : Int)], none⟩
          else .ok ⟨im.mtype, im.mask, a.resolved_indexes.get_index 0⟩
        | some _ => .error (Err.plain .typeKind)
    | _ => .error (Err.plain .typeKind)
  else if im.mask.shape ≠ a.parent.shape then
    .error ⟨.valueKind, a.parent.shape.map Int.ofNat, im.mask.shape.map Int.ofNat, none⟩
  else .ok ⟨im.mtype, im.mask, a.resolved_indexes⟩

/-- The mask a deferred extraction is materialized with: either the
caller's own `mask` argument or the mask derived from `input_mask`. -/
inductive MaskParam
  | given (m : InputMask)
  | derived (d : DerivedMask)
deriving DecidableEq, Repr

/-- What `AmbiguousAssignOrExtract.new` produces: a single-element
`_extract_element` call, or `_prep_for_extract(indices).new(mask)` (the
`dtype` and `name` pass-through options are dropped: no behavior here
depends on them). -/
inductive ExtractOut
  | element (indices : List IndexSpec)
  | delayedNew (indices : List IndexSpec) (mask : Option MaskParam)
deriving DecidableEq, Repr

/-- `AmbiguousAssignOrExtract.new`: single-element extraction rejects any
mask; a multi-element extraction with `input_mask` rejects a simultaneous
`mask`, validates the mask object, translates it, and extracts with the
derived mask; otherwise extracts with the `mask` argument. -/
def AmbiguousAssignOrExtract.new (a : AmbiguousAssignOrExtract)
    (mask input_mask : Option InputMask) : Except Err ExtractOut :=
  if a.resolved_indexes.is_single_element then
    if mask.isSome || input_mask.isSome then .error (Err.plain .typeKind)
    else .ok (.element a.resolved_indexes.indices)
  else
    match input_mask with
    | some im =>
      if mask.isSome then .error (Err.plain .typeKind)
      else
        match check_mask im a.parent with
        | .error e => .error e
        | .ok _ =>
          match a.input_mask_to_mask im with
          | .error e => .error e
          | .ok dm => .ok (.delayedNew a.resolved_indexes.indices (some (.derived dm)))
    | none => .ok (.delayedNew a.resolved_indexes.indices (mask.map .given))

/-- `AmbiguousAssignOrExtract.update` (and `__lshift__`, which forwards to
it): the direct unparameterized apply; rejects a transposed view, then
commits through a fresh zero-parameter `Updater`. -/
def AmbiguousAssignOrExtract.update (a : AmbiguousAssignOrExtract) (obj : Val) :
    List Prim × Option Err :=
  if a.parent.is_transposed then ([], some (Err.plain .operationKind))
  else ((Updater.mk a.parent Kwargs.noParams).setitem a.resolved_indexes obj false, none)

/-- Modelled from the spec: the container's parameterized call (`base.py`,
not under `src/`) "builds a freshly parameterized Updater" capturing the
call-time parameters. -/
def containerCall (parent : Obj) (kwargs : Kwargs) : Updater := ⟨parent, kwargs⟩

/-- `AmbiguousAssignOrExtract.__call__`: become an assignment stage — build
the parameterized `Updater` and return an `Assigner` whose `is_submask` is
set iff a `mask` parameter was captured. -/
def AmbiguousAssignOrExtract.call (a : AmbiguousAssignOrExtract) (kwargs : Kwargs) :
    Except Err Assigner :=
  Assigner.make (containerCall a.parent kwargs) a.resolved_indexes kwargs.mask.isSome

/-- The composite commit path `C[index](params) << v` / `.update(v)`:
the parameterized call followed by `Assigner.update`. -/
def AmbiguousAssignOrExtract.callThenUpdate (a : AmbiguousAssignOrExtract)
    (kwargs : Kwargs) (obj : Val) : List Prim × Option Err :=
  match a.call kwargs with
  | .error e => ([], some e)
  | .ok asg => (asg.update obj, none)

/-- The concrete method a multiply node will invoke. -/
inductive MMethod
  | vxm
  | mxv
  | mxm
deriving DecidableEq, Repr

/-- The element-wise family being dispatched. -/
inductive EwiseMethod
  | ewise_add
  | ewise_mult
deriving DecidableEq, Repr

/-- The infix expression nodes (`VectorEwiseAddExpr`, `VectorEwiseMultExpr`,
`MatrixEwiseAddExpr`, `MatrixEwiseMultExpr`, `VectorMatMulExpr`,
`MatrixMatMulExpr`): operand references plus the stored output shape. -/
inductive InfixNode
  | vectorEwiseAdd (left right : Obj) (size : Nat)
  | vectorEwiseMult (left right : Obj) (size : Nat)
  | matrixEwiseAdd (left right : Obj) (nrows ncols : Nat)
  | matrixEwiseMult (left right : Obj) (nrows ncols : Nat)
  | vectorMatMul (left right : Obj) (method : MMethod) (size : Nat)
  | matrixMatMul (left right : Obj) (nrows ncols : Nat)
deriving DecidableEq, Repr

/-- The shape/type metadata kept from a probe expression. -/
inductive ProbeShape
  | vectorOut (size : Nat)
  | matrixOut (nrows ncols : Nat)
deriving DecidableEq, Repr

/-- Modelled from the spec: the element-wise probe expression
(`getattr(left, method)(right, any)`, whose construction lives in the
container classes, not under `src/`).  It validates that operand shapes
match and reports whether the output is vector- or matrix-valued; the
dispatch fails identically when the probe fails. -/
def ewiseProbe (l r : Obj) : Except Err ProbeShape :=
  match l, r with
  | .vector n, .vector m =>
    if n = m then .ok (.vectorOut n) else .error (Err.plain .dimensionKind)
  | .matrix a b, .matrix c d =>
    if a = c ∧ b = d then .ok (.matrixOut a b) else .error (Err.plain .dimensionKind)
  | .matrix a b, .transposedMatrix c d =>
    if a = c ∧ b = d then .ok (.matrixOut a b) else .error (Err.plain .dimensionKind)
  | .transposedMatrix a b, .matrix c d =>
    if a = c ∧ b = d then .ok (.matrixOut a b) else .error (Err.plain .dimensionKind)
  | .transposedMatrix a b, .transposedMatrix c d =>
    if a = c ∧ b = d then .ok (.matrixOut a b) else .error (Err.plain .dimensionKind)
  | _, _ => .error (Err.plain .dimensionKind)

/-- Modelled from the spec: the multiply probe expression
(`getattr(left, method)(right, any_pair[bool])`, built by the container
classes, not under `src/`).  It validates that the inner dimensions agree
and yields the output shape of the chosen method. -/
def matmulProbe (l r : Obj) (m : MMethod) : Except Err ProbeShape :=
  match m with
  | .vxm =>
    if l.sizeOf = r.nrowsOf then .ok (.vectorOut r.ncolsOf)
    else .error (Err.plain .dimensionKind)
  | .mxv =>
    if l.ncolsOf = r.sizeOf then .ok (.vectorOut l.nrowsOf)
    else .error (Err.plain .dimensionKind)
  | .mxm =>
    if l.ncolsOf = r.nrowsOf then .ok (.matrixOut l.nrowsOf r.ncolsOf)
    else .error (Err.plain .dimensionKind)

/-- `left_type in {Vector, Matrix, TransposedMatrix}`. -/
def Obj.isContainerVariant (o : Obj) : Bool := o.isVector || o.isMatrixLike

/-- The element-wise variant-compatibility test of `_ewise_infix_expr`:
`left_type is right_type`, or Matrix with TransposedMatrix either way.
Only consulted when the left operand is a container variant. -/
def ewiseVariantOk (l r : Obj) : Bool :=
  match l, r with
  | .vector _, .vector _ => true
  | .matrix _ _, .matrix _ _ => true
  | .matrix _ _, .transposedMatrix _ _ => true
  | .transposedMatrix _ _, .matrix _ _ => true
  | .transposedMatrix _ _, .transposedMatrix _ _ => true
  | _, _ => false

/-- `_ewise_infix_expr`: variant dispatch for the element-wise infix
operators.  Incompatible variants fail through `_expect_type` naming
`"right"` when the left operand is a container and `"left"` when only the
right one is; the final branch (no container operand, `pragma: no cover`
in the source) fails without naming an argument.  On success the node kind
follows the probe's output type and the method. -/
def ewise_infix_expr (l r : Obj) (method : EwiseMethod) : Except Err InfixNode :=
  if l.isContainerVariant then
    if !(ewiseVariantOk l r) then .error ⟨.typeKind, [], [], some .right⟩
    else
      match ewiseProbe l r, method with
      | .error e, _ => .error e
      | .ok (.vectorOut _), .ewise_mult => .ok (.vectorEwiseMult l r l.sizeOf)
      | .ok (.vectorOut _), .ewise_add => .ok (.vectorEwiseAdd l r l.sizeOf)
      | .ok (.matrixOut _ _), .ewise_mult => .ok (.matrixEwiseMult l r l.nrowsOf l.ncolsOf)
      | .ok (.matrixOut _ _), .ewise_add => .ok (.matrixEwiseAdd l r l.nrowsOf l.ncolsOf)
  else if r.isVector then .error ⟨.typeKind, [], [], some .left⟩
  else if r.isMatrixLike then .error ⟨.typeKind, [], [], some .left⟩
  else .error (Err.plain .typeKind)

/-- The tail of `_matmul_infix_expr` once a method is chosen: run the probe
and build the node its output type selects. -/
def matmulBuild (l r : Obj) (m : MMethod) : Except Err InfixNode :=
  match matmulProbe l r m with
  | .error e => .error e
  | .ok (.vectorOut s) => .ok (.vectorMatMul l r m s)
  | .ok (.matrixOut a b) => .ok (.matrixMatMul l r a b)

/-- `_matmul_infix_expr`: variant dispatch for the multiply infix operator.
Vector with matrix-like chooses `vxm`; matrix-like with Vector chooses
`mxv`; matrix-like with matrix-like chooses `mxm`; every other pairing
fails through `_expect_type` (naming `"right"` when the left operand is a
container, `"left"` when only the right one is), and the no-container
branch (`pragma: no cover` in the source) fails without naming one. -/
def matmul_infix_expr (l r : Obj) : Except Err InfixNode :=
  if l.isVector then
    if r.isMatrixLike then matmulBuild l r .vxm
    else .error ⟨.typeKind, [], [], some .right⟩
  else if l.isMatrixLike then
    if r.isVector then matmulBuild l r .mxv
    else if r.isMatrixLike then matmulBuild l r .mxm
    else .error ⟨.typeKind, [], [], some .right⟩
  else if r.isVector then .error ⟨.typeKind, [], [], some .left⟩
  else if r.isMatrixLike then .error ⟨.typeKind, [], [], some .left⟩
  else .error (Err.plain .typeKind)

/-! ## Helper lemmas -/

theorem arithList_one : ∀ (k : Nat) (s : Int),
    arithList s 1 k = (List.range k).map (fun i : Nat => s + (i : Int)) := by
  intro k
  induction k with
  | zero => intro s; simp [arithList]
  | succ k ih =>
    intro s
    rw [List.range_succ_eq_map]
    simp only [List.map_cons, List.map_map, arithList, Nat.cast_zero, add_zero]
    refine congrArg (List.cons s) ?_
    rw [ih (s + 1)]
    refine List.map_congr_left fun a _ => ?_
    simp only [Function.comp_apply]
    push_cast
    ring

theorem sliceList_full (n : Nat) :
    sliceList ⟨none, none, none⟩ n = some ((List.range n).map Int.ofNat) := by
  have hcount : sliceCount 0 (n : Int) 1 = n := by
    unfold sliceCount
    cases n with
    | zero => simp
    | succ m =>
      have h1 : (0 : Int) < ((m + 1 : Nat) : Int) := by positivity
      simp only [if_pos (by norm_num : (0:Int) < 1), if_pos h1]
      omega
  simp only [sliceList, sliceBounds, adjustBound, Option.getD, Option.map]
  norm_num
  rw [hcount, arithList_one n 0]
  refine List.map_congr_left fun a _ => ?_
  simp

theorem parse_indices_length (keys : Raw) (shape : List Nat) (specs : List IndexSpec)
    (h : parse_indices keys shape = .ok specs) : specs.length = shape.length := by
  unfold parse_indices at h
  split at h
  · cases h
  · rename_i n i
    cases hp : parse_position i n with
    | error e => rw [hp] at h; exact Except.noConfusion h
    | ok s =>
      rw [hp] at h
      rw [← Except.ok.inj h]
      rfl
  · rename_i r c a b
    cases hp : parse_position a r with
    | error e => rw [hp] at h; exact Except.noConfusion h
    | ok s1 =>
      rw [hp] at h
      cases hq : parse_position b c with
      | error e => rw [hq] at h; exact Except.noConfusion h
      | ok s2 =>
        rw [hq] at h
        rw [← Except.ok.inj h]
        rfl
  · cases h
  · cases h

/-! ## Claim theorems -/

/-- C1: the commit routine `Updater._setitem` invokes exactly the fast
`_assign_element` primitive, bypassing the expression machinery, when the
resolved index is single-element and the `Updater` captured no call
parameter; in every other case it builds the deferred assignment via
`_prep_for_assign` (receiving the captured mask and the `is_submask` flag)
and applies it through the generic `_update` primitive with all captured
parameters; and the `Assigner` commit (`update`/`<<`) forwards to this same
routine. -/
theorem updater_commit_dispatch (u : Updater) (ri : IndexerResolver) (v : Val) (sub : Bool) :
    (ri.is_single_element ∧ u.kwargs.isEmpty →
      u.setitem ri v sub = [Prim.assign_element ri.indices v])
    ∧ (¬ (ri.is_single_element ∧ u.kwargs.isEmpty) →
      u.setitem ri v sub =
        [Prim.prep_for_assign ri.indices v u.kwargs.mask sub,
         Prim.update (Delayed.assignExpr ri.indices v u.kwargs.mask sub) u.kwargs])
    ∧ Assigner.update ⟨u, ri, sub⟩ v = u.setitem ri v sub := by
  refine ⟨?_, ?_, rfl⟩ <;> intro h <;>
    by_cases h1 : ri.is_single_element <;> by_cases h2 : u.kwargs.isEmpty <;>
    simp_all [Updater.setitem]

theorem updater_commit_dispatch_witness :
    Updater.setitem ⟨.vector 3, Kwargs.noParams⟩ ⟨[(.cscalar 1, none)]⟩ 7 false
      = [Prim.assign_element [(.cscalar 1, none)] 7]
    ∧ Updater.setitem ⟨.vector 3, ⟨none, some 0, none, none⟩⟩ ⟨[(.cscalar 1, none)]⟩ 7 false
      = [Prim.prep_for_assign [(.cscalar 1, none)] 7 none false,
         Prim.update (Delayed.assignExpr [(.cscalar 1, none)] 7 none false)
           ⟨none, some 0, none, none⟩] :=
  ⟨(updater_commit_dispatch ⟨.vector 3, Kwargs.noParams⟩ ⟨[(.cscalar 1, none)]⟩ 7 false).1
      ⟨rfl, rfl⟩,
   (updater_commit_dispatch ⟨.vector 3, ⟨none, some 0, none, none⟩⟩
      ⟨[(.cscalar 1, none)]⟩ 7 false).2.1 (by decide)⟩

/-- C3 counterexample: the integer index −1 lies outside `[0, 3)` yet
resolution succeeds with `(_CScalar(-1), None)` instead of raising
IndexKind — only the upper bound is checked. -/
theorem parse_index_negative_accepted :
    parse_index (.int (-1)) 3 = .ok (.cscalar (-1), none) ∧ (-1 : Int) < 0 := by
  exact ⟨rfl, by norm_num⟩

/-- C3 (amended): integer index resolution against a dimension of size `n`
succeeds, yielding a singleton-scalar spec with size field `None`, iff
`i < n`; every index `≥ n` raises IndexKind naming the index and the size;
a negative index is not range-checked and resolves successfully. -/
theorem parse_index_int_bounds (i : Int) (n : Nat) :
    (i < (n : Int) → parse_index (.int i) n = .ok (.cscalar i, none))
    ∧ ((n : Int) ≤ i → parse_index (.int i) n = .error ⟨.indexKind, [i], [(n : Int)], none⟩) := by
  constructor
  · intro h
    simp [parse_index, not_le.mpr h]
  · intro h
    simp [parse_index, h]

theorem parse_index_int_bounds_witness :
    parse_index (.int 1) 3 = .ok (.cscalar 1, none)
    ∧ parse_index (.int 5) 3 = .error ⟨.indexKind, [5], [3], none⟩ :=
  ⟨(parse_index_int_bounds 1 3).1 (by norm_num),
   (parse_index_int_bounds 5 3).2 (by norm_num)⟩

/-- C7 counterexample: the slice `0:` is distinct from the full-range slice
`:` yet resolves to the ALL-marker instead of being expanded into an
explicit integer sequence. -/
theorem slice_zero_start_gives_all :
    (⟨some 0, none, none⟩ : PySlice) ≠ ⟨none, none, none⟩
    ∧ parse_index (.slc ⟨some 0, none, none⟩) 3 = .ok (.allIndices, some 3) := by
  exact ⟨by decide, rfl⟩

/-- C7 (amended): the slices `:` and `0:` resolve to the ALL-marker paired
with the dimension size `n`, without materializing an explicit list; every
other slice is expanded into the explicit ordered integer sequence given by
standard Python slice semantics, paired with its length; and the sequence
the full-range slice would expand to is exactly `[0..n)`. -/
theorem parse_index_slice_forms (s : PySlice) (n : Nat) (xs : List Int) :
    (s = ⟨none, none, none⟩ ∨ s = ⟨some 0, none, none⟩ →
      parse_index (.slc s) n = .ok (.allIndices, some n))
    ∧ (s ≠ ⟨none, none, none⟩ → s ≠ ⟨some 0, none, none⟩ → sliceList s n = some xs →
      parse_index (.slc s) n = .ok (.carray xs, some xs.length))
    ∧ sliceList ⟨none, none, none⟩ n = some ((List.range n).map Int.ofNat) := by
  refine ⟨?_, ?_, sliceList_full n⟩
  · intro h
    simp [parse_index, h]
  · intro h1 h2 h3
    simp [parse_index, h1, h2, h3]

theorem parse_index_slice_forms_witness :
    parse_index (.slc ⟨none, none, none⟩) 4 = .ok (.allIndices, some 4)
    ∧ parse_index (.slc ⟨some 1, none, none⟩) 4 = .ok (.carray [1, 2, 3], some 3) :=
  ⟨(parse_index_slice_forms ⟨none, none, none⟩ 4 []).1 (Or.inl rfl),
   (parse_index_slice_forms ⟨some 1, none, none⟩ 4 [1, 2, 3]).2.1
     (by decide) (by decide) rfl⟩

/-- C6: staging an assignment while `input_mask` was captured raises
ParameterKind at `Assigner` construction, both through `Updater` indexing
and through the staging object's parameterized call; in particular a call
that supplies both `mask` and `input_mask` raises ParameterKind. -/
theorem assigner_input_mask_guard (u : Updater) (ri : IndexerResolver) (sub : Bool)
    (parent m im : Obj) (ac : Option Nat) (rp : Option Bool) (kwargs : Kwargs) :
    (u.kwargs.input_mask.isSome → Assigner.make u ri sub = .error (Err.plain .parameterKind))
    ∧ (kwargs.input_mask.isSome →
      AmbiguousAssignOrExtract.call ⟨parent, ri⟩ kwargs = .error (Err.plain .parameterKind))
    ∧ AmbiguousAssignOrExtract.call ⟨parent, ri⟩ ⟨some m, ac, rp, some im⟩
      = .error (Err.plain .parameterKind) := by
  refine ⟨?_, ?_, rfl⟩
  · intro h
    simp [Assigner.make, h]
  · intro h
    simp [AmbiguousAssignOrExtract.call, containerCall, Assigner.make, h]

theorem assigner_input_mask_guard_witness :
    Assigner.make ⟨.matrix 2 2, ⟨none, none, none, some (.vector 2)⟩⟩ ⟨[(.cscalar 0, none)]⟩ false
      = .error (Err.plain .parameterKind)
    ∧ AmbiguousAssignOrExtract.call ⟨.matrix 2 2, ⟨[(.cscalar 0, none)]⟩⟩
        ⟨some (.vector 2), none, none, some (.vector 2)⟩
      = .error (Err.plain .parameterKind) :=
  ⟨(assigner_input_mask_guard ⟨.matrix 2 2, ⟨none, none, none, some (.vector 2)⟩⟩
      ⟨[(.cscalar 0, none)]⟩ false (.matrix 2 2) (.vector 2) (.vector 2) none none
      Kwargs.noParams).1 rfl,
   (assigner_input_mask_guard ⟨.matrix 2 2, Kwargs.noParams⟩ ⟨[(.cscalar 0, none)]⟩ false
      (.matrix 2 2) (.vector 2) (.vector 2) none none
      ⟨some (.vector 2), none, none, some (.vector 2)⟩).2.1 rfl⟩

/-- C8: every commit path — assignment `C(params)[index] = v`, delete
`del C(params)[index]`, and the `Assigner` commit `C(params)[index] << v` —
that raises an error does so with an empty primitive-call trace: no
container-mutating primitive (`_assign_element`, `_delete_element`,
`_prep_for_assign`, `_update`) has been invoked when the error is raised. -/
theorem commit_error_before_primitives (u : Updater) (keys : Raw) (v : Val) :
    ((u.setitemKeys keys v).2.isSome → (u.setitemKeys keys v).1 = [])
    ∧ ((u.delitem keys).2.isSome → (u.delitem keys).1 = [])
    ∧ ((u.bracketAssign keys v).2.isSome → (u.bracketAssign keys v).1 = []) := by
  refine ⟨?_, ?_, ?_⟩
  · simp only [Updater.setitemKeys]
    split
    · simp
    · split <;> simp
  · simp only [Updater.delitem]
    split
    · simp
    · split
      · simp
      · split <;> simp
  · simp only [Updater.bracketAssign]
    split <;> simp

theorem commit_error_before_primitives_witness :
    (Updater.setitemKeys ⟨.scalar, Kwargs.noParams⟩ (.base (.int 0)) 5).1 = []
    ∧ (Updater.delitem ⟨.vector 3, Kwargs.noParams⟩ (.base (.int 9))).1 = []
    ∧ (Updater.bracketAssign ⟨.vector 3, Kwargs.noParams⟩ (.base (.int 9)) 5).1 = [] :=
  ⟨(commit_error_before_primitives ⟨.scalar, Kwargs.noParams⟩ (.base (.int 0)) 5).1 rfl,
   (commit_error_before_primitives ⟨.vector 3, Kwargs.noParams⟩ (.base (.int 9)) 5).2.1 rfl,
   (commit_error_before_primitives ⟨.vector 3, Kwargs.noParams⟩ (.base (.int 9)) 5).2.2 rfl⟩

/-- C9: every successfully constructed `IndexerResolver` holds exactly as
many IndexSpecs as the container has dimensions (one for a 1-D container,
two for a 2-D one), and no resolver is ever built for a 0-D Scalar: each
`Updater` indexing path on a scalar-bound container raises OperationKind
before the resolver is constructed. -/
theorem resolver_rank_and_scalar_guard (obj : Obj) (keys : Raw) (specs : List IndexSpec)
    (k : Kwargs) (v : Val) :
    (resolveIndex obj keys = .ok ⟨specs⟩ → specs.length = obj.shape.length)
    ∧ Updater.getitem ⟨.scalar, k⟩ keys = .error (Err.plain .operationKind)
    ∧ Updater.setitemKeys ⟨.scalar, k⟩ keys v = ([], some (Err.plain .operationKind))
    ∧ Updater.delitem ⟨.scalar, k⟩ keys = ([], some (Err.plain .operationKind)) := by
  refine ⟨?_, rfl, rfl, rfl⟩
  intro h
  unfold resolveIndex at h
  cases hp : parse_indices keys obj.shape with
  | error e => rw [hp] at h; exact Except.noConfusion h
  | ok xs =>
    rw [hp] at h
    have hx : xs = specs := congrArg IndexerResolver.indices (Except.ok.inj h)
    rw [← hx]
    exact parse_indices_length keys obj.shape xs hp

theorem resolver_rank_and_scalar_guard_witness :
    ([((.cscalar 1 : IdxRep), (none : Option Nat)), (.allIndices, some 4)].length = 2)
    ∧ Updater.getitem ⟨.scalar, Kwargs.noParams⟩ (.base (.int 0))
      = .error (Err.plain .operationKind) :=
  ⟨(resolver_rank_and_scalar_guard (.matrix 3 4) (.tup [.int 1, .slc ⟨none, none, none⟩])
      [(.cscalar 1, none), (.allIndices, some 4)] Kwargs.noParams 0).1 rfl,
   (resolver_rank_and_scalar_guard (.matrix 3 4) (.tup [.int 1, .slc ⟨none, none, none⟩])
      [(.cscalar 1, none), (.allIndices, some 4)] Kwargs.noParams 0).2.1⟩

/-- C10: the read-only-view assignment guard lives only on the direct
unparameterized apply path of the staging object: for a transposed-Matrix
view, `C[index] << v` / `C[index].update(v)` raises with no primitive
invoked, while the parameterized path `C[index](...) << v` performs no
transposed check in this layer — it reaches the `Updater` commit routine
and emits its (nonempty) primitive trace. -/
theorem transposed_guard_direct_path_only (r c : Nat) (ri : IndexerResolver) (v : Val)
    (kwargs : Kwargs) (him : kwargs.input_mask = none) :
    AmbiguousAssignOrExtract.update ⟨.transposedMatrix r c, ri⟩ v
      = ([], some (Err.plain .operationKind))
    ∧ AmbiguousAssignOrExtract.callThenUpdate ⟨.transposedMatrix r c, ri⟩ kwargs v
      = ((Updater.mk (.transposedMatrix r c) kwargs).setitem ri v kwargs.mask.isSome, none)
    ∧ (AmbiguousAssignOrExtract.callThenUpdate ⟨.transposedMatrix r c, ri⟩ kwargs v).1 ≠ [] := by
  have hcall : AmbiguousAssignOrExtract.callThenUpdate ⟨.transposedMatrix r c, ri⟩ kwargs v
      = ((Updater.mk (.transposedMatrix r c) kwargs).setitem ri v kwargs.mask.isSome, none) := by
    simp [AmbiguousAssignOrExtract.callThenUpdate, AmbiguousAssignOrExtract.call,
      containerCall, Assigner.make, him, Assigner.update]
  refine ⟨rfl, hcall, ?_⟩
  rw [hcall]
  simp only [Updater.setitem]
  split <;> simp

theorem transposed_guard_direct_path_only_witness :
    AmbiguousAssignOrExtract.update ⟨.transposedMatrix 2 3, ⟨[(.cscalar 0, none), (.cscalar 1, none)]⟩⟩ 7
      = ([], some (Err.plain .operationKind))
    ∧ AmbiguousAssignOrExtract.callThenUpdate
        ⟨.transposedMatrix 2 3, ⟨[(.cscalar 0, none), (.cscalar 1, none)]⟩⟩
        ⟨some (.matrix 2 3), none, none, none⟩ 7
      = ((Updater.mk (.transposedMatrix 2 3) ⟨some (.matrix 2 3), none, none, none⟩).setitem
          ⟨[(.cscalar 0, none), (.cscalar 1, none)]⟩ 7 true, none) :=
  ⟨(transposed_guard_direct_path_only 2 3 ⟨[(.cscalar 0, none), (.cscalar 1, none)]⟩ 7
      ⟨some (.matrix 2 3), none, none, none⟩ rfl).1,
   (transposed_guard_direct_path_only 2 3 ⟨[(.cscalar 0, none), (.cscalar 1, none)]⟩ 7
      ⟨some (.matrix 2 3), none, none, none⟩ rfl).2.1⟩

/-- C4: multiply-infix dispatch sends Vector × matrix-like to a
vector-shaped node tagged `vxm`, matrix-like × Vector to a vector-shaped
node tagged `mxv`, matrix-like × matrix-like to a matrix node (the `mxm`
node kind), and raises TypeKind on Vector × Vector and on every pairing
involving an unrecognized operand (`l` below is any non-container). -/
theorem matmul_dispatch (n m r c c2 : Nat) (l : Obj)
    (hl : l.isContainerVariant = false) :
    matmul_infix_expr (.vector r) (.matrix r c)
      = .ok (.vectorMatMul (.vector r) (.matrix r c) .vxm c)
    ∧ matmul_infix_expr (.vector r) (.transposedMatrix r c)
      = .ok (.vectorMatMul (.vector r) (.transposedMatrix r c) .vxm c)
    ∧ matmul_infix_expr (.matrix r c) (.vector c)
      = .ok (.vectorMatMul (.matrix r c) (.vector c) .mxv r)
    ∧ matmul_infix_expr (.transposedMatrix r c) (.vector c)
      = .ok (.vectorMatMul (.transposedMatrix r c) (.vector c) .mxv r)
    ∧ matmul_infix_expr (.matrix r c) (.matrix c c2)
      = .ok (.matrixMatMul (.matrix r c) (.matrix c c2) r c2)
    ∧ matmul_infix_expr (.transposedMatrix r c) (.matrix c c2)
      = .ok (.matrixMatMul (.transposedMatrix r c) (.matrix c c2) r c2)
    ∧ matmul_infix_expr (.matrix r c) (.transposedMatrix c c2)
      = .ok (.matrixMatMul (.matrix r c) (.transposedMatrix c c2) r c2)
    ∧ matmul_infix_expr (.vector n) (.vector m) = .error ⟨.typeKind, [], [], some .right⟩
    ∧ matmul_infix_expr (.vector n) l = .error ⟨.typeKind, [], [], some .right⟩
    ∧ matmul_infix_expr (.matrix r c) l = .error ⟨.typeKind, [], [], some .right⟩
    ∧ matmul_infix_expr l (.vector n) = .error ⟨.typeKind, [], [], some .left⟩
    ∧ matmul_infix_expr l (.matrix r c) = .error ⟨.typeKind, [], [], some .left⟩
    ∧ matmul_infix_expr l l = .error (Err.plain .typeKind) := by
  refine ⟨by simp [matmul_infix_expr, matmulBuild, matmulProbe, Obj.isVector, Obj.isMatrixLike,
      Obj.sizeOf, Obj.nrowsOf, Obj.ncolsOf],
    by simp [matmul_infix_expr, matmulBuild, matmulProbe, Obj.isVector, Obj.isMatrixLike,
      Obj.sizeOf, Obj.nrowsOf, Obj.ncolsOf],
    by simp [matmul_infix_expr, matmulBuild, matmulProbe, Obj.isVector, Obj.isMatrixLike,
      Obj.sizeOf, Obj.nrowsOf, Obj.ncolsOf],
    by simp [matmul_infix_expr, matmulBuild, matmulProbe, Obj.isVector, Obj.isMatrixLike,
      Obj.sizeOf, Obj.nrowsOf, Obj.ncolsOf],
    by simp [matmul_infix_expr, matmulBuild, matmulProbe, Obj.isVector, Obj.isMatrixLike,
      Obj.sizeOf, Obj.nrowsOf, Obj.ncolsOf],
    by simp [matmul_infix_expr, matmulBuild, matmulProbe, Obj.isVector, Obj.isMatrixLike,
      Obj.sizeOf, Obj.nrowsOf, Obj.ncolsOf],
    by simp [matmul_infix_expr, matmulBuild, matmulProbe, Obj.isVector, Obj.isMatrixLike,
      Obj.sizeOf, Obj.nrowsOf, Obj.ncolsOf],
    by simp [matmul_infix_expr, Obj.isVector, Obj.isMatrixLike],
    ?_, ?_, ?_, ?_, ?_⟩ <;>
  cases l <;>
  simp_all [matmul_infix_expr, Obj.isContainerVariant, Obj.isVector, Obj.isMatrixLike]

theorem matmul_dispatch_witness :
    matmul_infix_expr (.vector 2) (.matrix 2 3)
      = .ok (.vectorMatMul (.vector 2) (.matrix 2 3) .vxm 3)
    ∧ matmul_infix_expr (.matrix 2 3) (.vector 3)
      = .ok (.vectorMatMul (.matrix 2 3) (.vector 3) .mxv 2)
    ∧ matmul_infix_expr (.matrix 2 3) (.matrix 3 4)
      = .ok (.matrixMatMul (.matrix 2 3) (.matrix 3 4) 2 4)
    ∧ matmul_infix_expr (.vector 2) (.vector 2) = .error ⟨.typeKind, [], [], some .right⟩ :=
  ⟨(matmul_dispatch 2 2 2 3 4 .foreign rfl).1,
   (matmul_dispatch 2 2 2 3 4 .foreign rfl).2.2.1,
   (matmul_dispatch 2 2 2 3 4 .foreign rfl).2.2.2.2.1,
   (matmul_dispatch 2 2 2 3 4 .foreign rfl).2.2.2.2.2.2.2.1⟩

/-- C5: element-wise infix dispatch accepts Vector with Vector and
matrix-like with matrix-like (same shape); two same-size Vectors yield a
node whose stored size equals the operand size; every mismatched pairing
with a container operand raises TypeKind naming the offending argument:
`"right"` when the left operand is a container of an incompatible variant,
`"left"` when only the right operand is a container. -/
theorem ewise_dispatch (n r1 c1 : Nat) (l r l2 r2 : Obj) (meth : EwiseMethod)
    (hc : l.isContainerVariant = true) (hnc : ewiseVariantOk l r = false)
    (hl2 : l2.isContainerVariant = false) (hr2 : r2.isContainerVariant = true) :
    ewise_infix_expr (.vector n) (.vector n) .ewise_add
      = .ok (.vectorEwiseAdd (.vector n) (.vector n) n)
    ∧ ewise_infix_expr (.vector n) (.vector n) .ewise_mult
      = .ok (.vectorEwiseMult (.vector n) (.vector n) n)
    ∧ ewise_infix_expr (.matrix r1 c1) (.matrix r1 c1) .ewise_add
      = .ok (.matrixEwiseAdd (.matrix r1 c1) (.matrix r1 c1) r1 c1)
    ∧ ewise_infix_expr (.matrix r1 c1) (.transposedMatrix r1 c1) .ewise_mult
      = .ok (.matrixEwiseMult (.matrix r1 c1) (.transposedMatrix r1 c1) r1 c1)
    ∧ ewise_infix_expr (.transposedMatrix r1 c1) (.matrix r1 c1) .ewise_add
      = .ok (.matrixEwiseAdd (.transposedMatrix r1 c1) (.matrix r1 c1) r1 c1)
    ∧ ewise_infix_expr (.transposedMatrix r1 c1) (.transposedMatrix r1 c1) .ewise_mult
      = .ok (.matrixEwiseMult (.transposedMatrix r1 c1) (.transposedMatrix r1 c1) r1 c1)
    ∧ ewise_infix_expr l r meth = .error ⟨.typeKind, [], [], some .right⟩
    ∧ ewise_infix_expr l2 r2 meth = .error ⟨.typeKind, [], [], some .left⟩ := by
  refine ⟨by simp [ewise_infix_expr, ewiseProbe, ewiseVariantOk, Obj.isContainerVariant,
      Obj.isVector, Obj.isMatrixLike, Obj.sizeOf, Obj.nrowsOf, Obj.ncolsOf],
    by simp [ewise_infix_expr, ewiseProbe, ewiseVariantOk, Obj.isContainerVariant,
      Obj.isVector, Obj.isMatrixLike, Obj.sizeOf, Obj.nrowsOf, Obj.ncolsOf],
    by simp [ewise_infix_expr, ewiseProbe, ewiseVariantOk, Obj.isContainerVariant,
      Obj.isVector, Obj.isMatrixLike, Obj.sizeOf, Obj.nrowsOf, Obj.ncolsOf],
    by simp [ewise_infix_expr, ewiseProbe, ewiseVariantOk, Obj.isContainerVariant,
      Obj.isVector, Obj.isMatrixLike, Obj.sizeOf, Obj.nrowsOf, Obj.ncolsOf],
    by simp [ewise_infix_expr, ewiseProbe, ewiseVariantOk, Obj.isContainerVariant,
      Obj.isVector, Obj.isMatrixLike, Obj.sizeOf, Obj.nrowsOf, Obj.ncolsOf],
    by simp [ewise_infix_expr, ewiseProbe, ewiseVariantOk, Obj.isContainerVariant,
      Obj.isVector, Obj.isMatrixLike, Obj.sizeOf, Obj.nrowsOf, Obj.ncolsOf],
    ?_, ?_⟩
  · simp [ewise_infix_expr, hc, hnc]
  · cases r2 <;>
      simp_all [ewise_infix_expr, Obj.isContainerVariant, Obj.isVector, Obj.isMatrixLike]

theorem ewise_dispatch_witness :
    ewise_infix_expr (.vector 5) (.vector 5) .ewise_add
      = .ok (.vectorEwiseAdd (.vector 5) (.vector 5) 5)
    ∧ ewise_infix_expr (.vector 5) (.matrix 2 3) .ewise_add
      = .error ⟨.typeKind, [], [], some .right⟩
    ∧ ewise_infix_expr (.foreign) (.vector 5) .ewise_mult
      = .error ⟨.typeKind, [], [], some .left⟩ :=
  ⟨(ewise_dispatch 5 2 3 (.vector 5) (.matrix 2 3) .foreign (.vector 5) .ewise_add
      rfl rfl rfl rfl).1,
   (ewise_dispatch 5 2 3 (.vector 5) (.matrix 2 3) .foreign (.vector 5) .ewise_add
      rfl rfl rfl rfl).2.2.2.2.2.2.1,
   (ewise_dispatch 5 2 3 (.vector 5) (.matrix 2 3) .foreign (.vector 5) .ewise_mult
      rfl rfl rfl rfl).2.2.2.2.2.2.2⟩

/-- C2: for a multi-element extraction `C[index].new(input_mask=M)` on an
`(nr, nc)` matrix with a Vector mask: when the row dimension resolved to a
plain integer, a mask of length `nc` succeeds (projected through the column
dimension) and any other length raises ValueKind naming both sizes; when
the column dimension resolved to a plain integer, symmetrically with `nr`
and the row dimension; when neither dimension is a plain integer the call
raises TypeKind, and when both are (single-element index), supplying
`input_mask` also raises TypeKind; a Matrix mask whose shape equals the
target's is used directly, and a shape mismatch raises ValueKind naming
both shapes. -/
theorem input_mask_translation (nr nc k k2 ms ms2 p q : Nat) (rrep crep : IdxRep)
    (mt : MaskType) (h1 : ms ≠ nc) (h2 : ms2 ≠ nr) (hpq : ¬ (p = nr ∧ q = nc)) :
    AmbiguousAssignOrExtract.new ⟨.matrix nr nc, ⟨[(rrep, none), (crep, some k)]⟩⟩ none
        (some ⟨mt, .vector nc⟩)
      = .ok (.delayedNew [(rrep, none), (crep, some k)]
          (some (.derived ⟨mt, .vector nc, ⟨[(crep, some k)]⟩⟩)))
    ∧ AmbiguousAssignOrExtract.new ⟨.matrix nr nc, ⟨[(rrep, none), (crep, some k)]⟩⟩ none
        (some ⟨mt, .vector ms⟩)
      = .error ⟨.valueKind, [(nc : Int)], [(ms : Int)], none⟩
    ∧ AmbiguousAssignOrExtract.new ⟨.matrix nr nc, ⟨[(rrep, some k), (crep, none)]⟩⟩ none
        (some ⟨mt, .vector nr⟩)
      = .ok (.delayedNew [(rrep, some k), (crep, none)]
          (some (.derived ⟨mt, .vector nr, ⟨[(rrep, some k)]⟩⟩)))
    ∧ AmbiguousAssignOrExtract.new ⟨.matrix nr nc, ⟨[(rrep, some k), (crep, none)]⟩⟩ none
        (some ⟨mt, .vector ms2⟩)
      = .error ⟨.valueKind, [(nr : Int)], [(ms2 : Int)], none⟩
    ∧ AmbiguousAssignOrExtract.new ⟨.matrix nr nc, ⟨[(rrep, some k), (crep, some k2)]⟩⟩ none
        (some ⟨mt, .vector ms⟩)
      = .error (Err.plain .typeKind)
    ∧ AmbiguousAssignOrExtract.new ⟨.matrix nr nc, ⟨[(rrep, none), (crep, none)]⟩⟩ none
        (some ⟨mt, .vector ms⟩)
      = .error (Err.plain .typeKind)
    ∧ AmbiguousAssignOrExtract.new ⟨.matrix nr nc, ⟨[(rrep, none), (crep, some k)]⟩⟩ none
        (some ⟨mt, .matrix nr nc⟩)
      = .ok (.delayedNew [(rrep, none), (crep, some k)]
          (some (.derived ⟨mt, .matrix nr nc, ⟨[(rrep, none), (crep, some k)]⟩⟩)))
    ∧ AmbiguousAssignOrExtract.new ⟨.matrix nr nc, ⟨[(rrep, none), (crep, some k)]⟩⟩ none
        (some ⟨mt, .matrix p q⟩)
      = .error ⟨.valueKind, [Int.ofNat nr, Int.ofNat nc], [Int.ofNat p, Int.ofNat q], none⟩ := by
  refine ⟨?_, ?_, ?_, ?_, ?_, ?_, ?_, ?_⟩ <;>
    simp [AmbiguousAssignOrExtract.new, AmbiguousAssignOrExtract.input_mask_to_mask,
      check_mask, IndexerResolver.is_single_element, IndexerResolver.get_index,
      Obj.isVector, Obj.ncolsOf, Obj.nrowsOf, Obj.sizeOf, Obj.shape,
      Ne.symm h1, Ne.symm h2, hpq]

theorem input_mask_translation_witness :
    AmbiguousAssignOrExtract.new
        ⟨.matrix 2 3, ⟨[(.cscalar 0, none), (.carray [0, 1], some 2)]⟩⟩ none
        (some ⟨.structural, .vector 3⟩)
      = .ok (.delayedNew [(.cscalar 0, none), (.carray [0, 1], some 2)]
          (some (.derived ⟨.structural, .vector 3, ⟨[(.carray [0, 1], some 2)]⟩⟩)))
    ∧ AmbiguousAssignOrExtract.new
        ⟨.matrix 2 3, ⟨[(.cscalar 0, none), (.carray [0, 1], some 2)]⟩⟩ none
        (some ⟨.structural, .vector 4⟩)
      = .error ⟨.valueKind, [3], [4], none⟩
    ∧ AmbiguousAssignOrExtract.new
        ⟨.matrix 2 3, ⟨[(.cscalar 0, none), (.carray [0, 1], some 2)]⟩⟩ none
        (some ⟨.structural, .matrix 3 3⟩)
      = .error ⟨.valueKind, [2, 3], [3, 3], none⟩ :=
  ⟨(input_mask_translation 2 3 2 1 4 5 3 3 (.cscalar 0) (.carray [0, 1]) .structural
      (by decide) (by decide) (by decide)).1,
   (input_mask_translation 2 3 2 1 4 5 3 3 (.cscalar 0) (.carray [0, 1]) .structural
      (by decide) (by decide) (by decide)).2.1,
   (input_mask_translation 2 3 2 1 4 5 3 3 (.cscalar 0) (.carray [0, 1]) .structural
      (by decide) (by decide) (by decide)).2.2.2.2.2.2.2⟩

end Grblas
